import Mathlib

/-!
Verification of the synthetic-data pipeline of `teste.py` (corporate
dashboard).  Randomness (`np.random.*`, `faker`) is modelled by explicit
oracle functions supplied as parameters; floating-point numbers are
modelled by `ℚ`; pandas timestamps are modelled by a civil `Date`
converted to seconds via the standard days-from-civil algorithm.
-/

/-- Reference data: `REGIOES` from the source. -/
def REGIOES : List String := ["Norte", "Nordeste", "Centro-Oeste", "Sudeste", "Sul"]

/-- Reference data: `ESTADOS_POR_REGIAO` from the source (a dict; unknown
keys would raise in Python and are mapped to `[]` here, never hit). -/
def ESTADOS_POR_REGIAO : String → List String
  | "Norte" => ["AM", "PA", "RO", "RR", "AP", "AC", "TO"]
  | "Nordeste" => ["BA", "PE", "CE", "MA", "PB", "SE", "RN", "AL", "PI"]
  | "Centro-Oeste" => ["GO", "MT", "MS", "DF"]
  | "Sudeste" => ["SP", "RJ", "MG", "ES"]
  | "Sul" => ["PR", "SC", "RS"]
  | _ => []

/-- Reference data: `PRODUTOS`. -/
def PRODUTOS : List String :=
  ["Produto A", "Produto B", "Produto C", "Produto D", "Produto E"]

/-- Reference data: `CATEGORIAS`. -/
def CATEGORIAS : List String := ["Linha Casa", "Linha Escritório", "Linha Premium"]

/-- Reference data: `CARGOS`. -/
def CARGOS : List String := ["Analista", "Senior", "Coordenador", "Gerente", "Estagiário"]

/-- Reference data: `DEPARTAMENTOS`. -/
def DEPARTAMENTOS : List String :=
  ["Comercial", "Financeiro", "RH", "TI", "Operações", "Logística"]

/-- `np.random.choice(seq)` modelled by an oracle index `k` reduced mod the
length of the sequence. -/
def chooseD {α : Type} (l : List α) (dflt : α) (k : Nat) : α :=
  l.getD (k % l.length) dflt

/-- `round(x, 2)` / numpy `.round(2)`: round to two decimal places. -/
def round2 (q : ℚ) : ℚ := (round (q * 100) : ℚ) / 100

/-- `np.random.uniform(a, b)` modelled by an oracle parameter `t` clamped
to `[0,1]`, so the draw always lies in `[a,b]`. -/
def unif (a b t : ℚ) : ℚ := a + (b - a) * (max 0 (min 1 t))

/-- Python `int(...)` / numpy `.astype(int)`: truncation toward zero. -/
def truncQ (q : ℚ) : Int := if 0 ≤ q then ⌊q⌋ else ⌈q⌉

/-- pandas `Series.clip(lo, hi)`. -/
def clipQ (lo hi x : ℚ) : ℚ := min hi (max lo x)

/-- A calendar day, as pandas day-resolution timestamps. -/
structure Date where
  year : Nat
  month : Nat
  day : Nat
deriving DecidableEq, Repr

/-- Gregorian leap year. -/
def isLeap (y : Nat) : Bool := (y % 4 == 0 && y % 100 != 0) || y % 400 == 0

/-- Days in a Gregorian month. -/
def daysInMonth (y m : Nat) : Nat :=
  if m == 2 then (if isLeap y then 29 else 28)
  else if m == 4 || m == 6 || m == 9 || m == 11 then 30
  else 31

/-- Successor day in the civil calendar. -/
def nextDay (d : Date) : Date :=
  if d.day < daysInMonth d.year d.month then ⟨d.year, d.month, d.day + 1⟩
  else if d.month < 12 then ⟨d.year, d.month + 1, 1⟩
  else ⟨d.year + 1, 1, 1⟩

/-- Days since 1970-01-01 (civil-from-days algorithm); all dates in the
program are after 1970, so every intermediate quantity is nonnegative. -/
def daysFromCivil (d : Date) : Int :=
  let y : Int := if d.month ≤ 2 then (d.year : Int) - 1 else (d.year : Int)
  let era : Int := (if 0 ≤ y then y else y - 399) / 400
  let yoe : Int := y - era * 400
  let mp : Int := ((d.month : Int) + 9) % 12
  let doy : Int := (153 * mp + 2) / 5 + (d.day : Int) - 1
  let doe : Int := yoe * 365 + yoe / 4 - yoe / 100 + doy
  era * 146097 + doe - 719468

/-- The pandas timestamp (seconds since epoch) of a day-resolution date. -/
def tsDate (d : Date) : Int := daysFromCivil d * 86400

/-- `d + n` days. -/
def addDays : Date → Nat → Date
  | d, 0 => d
  | d, n + 1 => addDays (nextDay d) n

/-- `pd.date_range(inicio, fim, freq="D")`, with explicit fuel. -/
def dateRangeFuel : Nat → Date → Date → List Date
  | 0, _, _ => []
  | n + 1, cur, last =>
    if tsDate cur ≤ tsDate last then cur :: dateRangeFuel n (nextDay cur) last else []

/-- `pd.date_range(inicio, fim, freq="D")`. -/
def dateRange (inicio fim : Date) : List Date := dateRangeFuel 100000 inicio fim

/-- A row of the Sales fact table produced by `gerar_vendas`. -/
structure Sale where
  data : Date
  ano : Nat
  mes : Nat
  regiao : String
  estado : String
  produto : String
  categoria : String
  quantidade : Nat
  valor_unit : ℚ
  desconto : ℚ
  valor_total : ℚ
  margem_pct : ℚ
  lucro : ℚ
  vendedor : String
  cliente : String
deriving DecidableEq, Repr

/-- The `preco_base` dict of `gerar_vendas` (unknown keys never occur). -/
def precoBase : String → ℚ
  | "Produto A" => 80
  | "Produto B" => 120
  | "Produto C" => 200
  | "Produto D" => 300
  | "Produto E" => 500
  | _ => 0

/-- The weighted discount choice list `[0, 0.05, 0.1, 0.15]`. -/
def DESCONTOS : List ℚ := [0, 1/20, 1/10, 3/20]

/-- Oracles for the random draws of `gerar_vendas`, one per `np.random`
call site (the weights of the discount draw do not constrain values). -/
structure VendasRng where
  diaIdx : Nat → Nat
  regIdx : Nat → Nat
  estIdx : Nat → Nat
  prodIdx : Nat → Nat
  catIdx : Nat → Nat
  quantR : Nat → Nat
  precoR : Nat → ℚ
  descIdx : Nat → Nat
  margemR : Nat → ℚ
  vendIdx : Nat → Nat
  fakeNome : Nat → String
  fakeEmpresa : Nat → String

/-- Row `i` of the arrays built by `gerar_vendas` before sorting. -/
def mkVenda (g : VendasRng) (dates : List Date) (dfVendedores : Option (List String))
    (i : Nat) : Sale :=
  let dia := chooseD dates ⟨2024, 1, 1⟩ (g.diaIdx i)
  let regiao := chooseD REGIOES "" (g.regIdx i)
  let estado := chooseD (ESTADOS_POR_REGIAO regiao) "" (g.estIdx i)
  let produto := chooseD PRODUTOS "" (g.prodIdx i)
  let categoria := chooseD CATEGORIAS "" (g.catIdx i)
  let quantidade := 1 + g.quantR i % 19
  let valor_unit := round2 (precoBase produto * unif (9/10) (12/10) (g.precoR i))
  let desconto := chooseD DESCONTOS 0 (g.descIdx i)
  let valor_total := round2 ((quantidade : ℚ) * valor_unit * (1 - desconto))
  let margem_pct := unif (3/20) (9/20) (g.margemR i)
  let lucro := round2 (valor_total * margem_pct)
  let vendedor :=
    match dfVendedores with
    | none => g.fakeNome i
    | some vs => if vs.isEmpty then g.fakeNome i else chooseD vs "" (g.vendIdx i)
  { data := dia, ano := dia.year, mes := dia.month, regiao := regiao, estado := estado,
    produto := produto, categoria := categoria, quantidade := quantidade,
    valor_unit := valor_unit, desconto := desconto, valor_total := valor_total,
    margem_pct := margem_pct, lucro := lucro, vendedor := vendedor,
    cliente := g.fakeEmpresa i }

/-- Insert a sale into a list sorted ascending by date. -/
def insereData (s : Sale) : List Sale → List Sale
  | [] => [s]
  | t :: ts => if tsDate s.data ≤ tsDate t.data then s :: t :: ts else t :: insereData s ts

/-- `sort_values("data")`: ascending sort on the date column. -/
def sortValuesData (l : List Sale) : List Sale := l.foldr insereData []

/-- `gerar_vendas(n, inicio, fim, df_vendedores)`: build the columns row
by row, then `sort_values("data")`. -/
def gerarVendas (g : VendasRng) (n : Nat) (inicio fim : Date)
    (dfVendedores : Option (List String)) : List Sale :=
  sortValuesData ((List.range n).map (mkVenda g (dateRange inicio fim) dfVendedores))

/-- First-occurrence deduplication, as pandas `Series.unique()`. -/
def uniqFirst {α : Type} [DecidableEq α] (l : List α) : List α :=
  l.foldl (fun acc x => if x ∈ acc then acc else acc ++ [x]) []

/-- A row of the Employees table produced by `gerar_colaboradores`. -/
structure Colab where
  id_colab : Nat
  nome : String
  departamento : String
  cargo : String
  salario : ℚ
  idade : Nat
  tempo_casa_meses : Nat
  regiao : String
  estado : String
deriving DecidableEq, Repr

/-- Oracles for the random draws of `gerar_colaboradores`. -/
structure ColabRng where
  nome : Nat → String
  depIdx : Nat → Nat
  cargoIdx : Nat → Nat
  salarioR : Nat → ℚ
  idadeR : Nat → Nat
  tempoR : Nat → Nat
  regIdx : Nat → Nat
  estIdx : Nat → Nat

/-- `gerar_colaboradores(n)`. -/
def gerarColaboradores (g : ColabRng) (n : Nat) : List Colab :=
  (List.range n).map fun i =>
    let regiao := chooseD REGIOES "" (g.regIdx i)
    { id_colab := i + 1
      nome := g.nome i
      departamento := chooseD DEPARTAMENTOS "" (g.depIdx i)
      cargo := chooseD CARGOS "" (g.cargoIdx i)
      salario := max 1800 (round2 (g.salarioR i))
      idade := 19 + g.idadeR i % 43
      tempo_casa_meses := 1 + g.tempoR i % 119
      regiao := regiao
      estado := chooseD (ESTADOS_POR_REGIAO regiao) "" (g.estIdx i) }

/-- The candidate pool of `gerar_vendedores`: unique names of employees in
the Comercial / Operações departments. -/
def candidatosVendedores (dfColab : List Colab) : List String :=
  uniqFirst ((dfColab.filter fun c =>
    decide (c.departamento ∈ (["Comercial", "Operações"] : List String))).map (·.nome))

/-- `gerar_vendedores(df_colab, n)`: take up to `n` candidates, pad with
fake names, return the first `n`. -/
def gerarVendedores (fakeNome : Nat → String) (dfColab : List Colab) (n : Nat) :
    List String :=
  let candidatos := candidatosVendedores dfColab
  let vendedores := if n ≤ candidatos.length then candidatos.take n else candidatos
  let vendedores :=
    if vendedores.length < n then
      vendedores ++ (List.range (n - vendedores.length)).map fakeNome
    else vendedores
  vendedores.take n

/-- A row of the Inventory snapshot produced by `gerar_estoque`. -/
structure Estoque where
  produto : String
  estado : String
  estoque_atual : Int
  ponto_pedido : Int
  giro_mensal : ℚ
deriving DecidableEq, Repr

/-- Summed Sales quantity of a (product, state) group. -/
def sumQuant (df : List Sale) (k : String × String) : Nat :=
  ((df.filter fun r => decide ((r.produto, r.estado) = k)).map (·.quantidade)).sum

/-- The Inventory row of the group at position `p.1` with key `p.2`. -/
def mkEstoque (stockR giroR : Nat → ℚ) (df : List Sale) (p : Nat × (String × String)) :
    Estoque :=
  let q := sumQuant df p.2
  { produto := p.2.1
    estado := p.2.2
    estoque_atual := truncQ ((q : ℚ) * unif (1/2) 2 (stockR p.1))
    ponto_pedido := max 20 (truncQ ((q : ℚ) * (3/10)))
    giro_mensal := round2 (unif (1/2) 4 (giroR p.1)) }

/-- `gerar_estoque(df_vendas)`: group by (produto, estado), sum quantities,
derive the snapshot columns. -/
def gerarEstoque (stockR giroR : Nat → ℚ) (df : List Sale) : List Estoque :=
  (uniqFirst (df.map fun r => (r.produto, r.estado))).enum.map (mkEstoque stockR giroR df)

/-- A row of the Work-Journal table produced by `gerar_jornada`. -/
structure Jornada where
  id_colab : Nat
  nome : String
  departamento : String
  semana : Nat
  data_ref : Date
  horas_semanais : Nat
  horas_extras : Nat
  faltas : Nat
deriving DecidableEq, Repr

/-- Oracles for the random draws of `gerar_jornada` (the per-department
normal parameters do not constrain the modelled draw). -/
structure JornadaRng where
  hBase : Nat → Nat
  extrasR : Nat → Nat → ℚ
  faltasR : Nat → Nat → ℚ

/-- `gerar_jornada(df_colab, semanas)`. -/
def gerarJornada (g : JornadaRng) (dfColab : List Colab) (semanas : Nat) :
    List Jornada :=
  dfColab.enum.flatMap fun p =>
    let hBase := 36 + g.hBase p.1 % 8
    (List.range semanas).map fun w =>
      { id_colab := p.2.id_colab
        nome := p.2.nome
        departamento := p.2.departamento
        semana := w + 1
        data_ref := addDays ⟨2024, 1, 1⟩ (7 * w)
        horas_semanais := hBase
        horas_extras := (max 0 (truncQ (g.extrasR p.1 w))).toNat
        faltas := (max 0 (truncQ (g.faltasR p.1 w))).toNat }

/-- `dt.to_period("M").dt.to_timestamp()` / the `Grouper(freq="MS")` bin of
a date: the first day of its month. -/
def monthStart (d : Date) : Date := ⟨d.year, d.month, 1⟩

/-- Linear index of a calendar month. -/
def monthIdx (d : Date) : Nat := d.year * 12 + (d.month - 1)

/-- The month-start date of a linear month index. -/
def monthOfIdx (i : Nat) : Date := ⟨i / 12, i % 12 + 1, 1⟩

/-- The month bins produced by `groupby(pd.Grouper(key="data", freq="MS"))`
on the Sales date column: every month start between the earliest and the
latest sale, empty months included; empty input gives no bins. -/
def mesesSpan (df : List Sale) : List Date :=
  match df with
  | [] => []
  | _ :: _ =>
    let idxs := df.map fun r => monthIdx r.data
    let lo := idxs.foldl Nat.min (idxs.headD 0)
    let hi := idxs.foldl Nat.max 0
    (List.range (hi + 1 - lo)).map fun j => monthOfIdx (lo + j)

/-- A Revenue row (`df_rec`) of `gerar_financeiro`. -/
structure FinRow where
  data : Date
  valor : ℚ
  tipo : String
deriving DecidableEq, Repr

/-- An Expense row of `gerar_financeiro`. -/
structure DespRow where
  data : Date
  conta : String
  valor : ℚ
  tipo : String
deriving DecidableEq, Repr

/-- Oracles for the four monthly cost-center uniform draws. -/
structure DespRng where
  op : Nat → ℚ
  pess : Nat → ℚ
  logi : Nat → ℚ
  mkt : Nat → ℚ

/-- `gerar_financeiro(df_vendas)`: revenue grouped by month start, and four
synthetic expense rows per month. -/
def gerarFinanceiro (dr : DespRng) (df : List Sale) : List FinRow × List DespRow :=
  let meses := mesesSpan df
  let dfRec := meses.map fun m =>
    { data := m
      valor := ((df.filter fun r => decide (monthStart r.data = m)).map (·.valor_total)).sum
      tipo := "Receita" : FinRow }
  let dfDesp := meses.enum.flatMap fun p =>
    [{ data := p.2, conta := "Operacional", valor := unif 120000 220000 (dr.op p.1),
       tipo := "Despesa" },
     { data := p.2, conta := "Pessoal", valor := unif 200000 350000 (dr.pess p.1),
       tipo := "Despesa" },
     { data := p.2, conta := "Logística", valor := unif 60000 140000 (dr.logi p.1),
       tipo := "Despesa" },
     { data := p.2, conta := "Marketing", valor := unif 40000 100000 (dr.mkt p.1),
       tipo := "Despesa" }]
  (dfRec, dfDesp)

/-- The number of calendar months spanned by the Sales date range. -/
def spanMeses (df : List Sale) : Nat := (mesesSpan df).length

/-- A row of the Production table produced by `gerar_operacoes`. -/
structure Producao where
  mes_ref : Date
  estado : String
  qtd_produzida : Nat
  defeitos : Int
  eficiencia_pct : ℚ
deriving DecidableEq, Repr

/-- A row of the Logistics table produced by `gerar_operacoes`. -/
structure Logistica where
  mes_ref : Date
  estado : String
  pedidos : Nat
  custo_frete : ℚ
  tempo_medio_entrega_dias : ℚ
deriving DecidableEq, Repr

/-- The rows of a (month, state) group of `gerar_operacoes`. -/
def grupoMesEstado (df : List Sale) (k : Date × String) : List Sale :=
  df.filter fun r => decide ((monthStart r.data, r.estado) = k)

/-- The Production row of the group at position `p.1` with key `p.2`. -/
def mkProducao (defR : Nat → ℚ) (df : List Sale) (p : Nat × (Date × String)) : Producao :=
  let grp := grupoMesEstado df p.2
  let q := (grp.map (·.quantidade)).sum
  let defeitos := truncQ (unif (1/2) (7/2) (defR p.1) * (grp.length : ℚ))
  { mes_ref := p.2.1
    estado := p.2.2
    qtd_produzida := q
    defeitos := defeitos
    eficiencia_pct :=
      round2 (clipQ 50 (199/2) (100 - (defeitos : ℚ) / max (q : ℚ) 1 * 100)) }

/-- The Logistics row of the group at position `p.1` with key `p.2`. -/
def mkLogistica (freteR tempoR : Nat → ℚ) (df : List Sale) (p : Nat × (Date × String)) :
    Logistica :=
  let grp := grupoMesEstado df p.2
  { mes_ref := p.2.1
    estado := p.2.2
    pedidos := grp.length
    custo_frete := unif (3/100) (8/100) (freteR p.1) * ((grp.map (·.valor_total)).sum)
    tempo_medio_entrega_dias := round2 (unif 2 8 (tempoR p.1)) }

/-- `gerar_operacoes(df_vendas)`: Production and Logistics grouped by
(month start, state). -/
def gerarOperacoes (defR freteR tempoR : Nat → ℚ) (df : List Sale) :
    List Producao × List Logistica :=
  let keys := uniqFirst (df.map fun r => (monthStart r.data, r.estado))
  (keys.enum.map (mkProducao defR df), keys.enum.map (mkLogistica freteR tempoR df))

/-- The in-memory dataset returned by `carregar_ou_gerar_dados`. -/
structure Dataset where
  colab : List Colab
  vend : List String
  vendas : List Sale
  estoque : List Estoque
  jornada : List Jornada
  receitas : List FinRow
  desp : List DespRow
  prod : List Producao
  log : List Logistica
deriving DecidableEq

/-- The data directory: one optional slot per named parquet artifact
(`colaboradores.parquet` … `logistica.parquet`); `none` means the file
does not exist. -/
structure Store where
  colab : Option (List Colab)
  vend : Option (List String)
  vendas : Option (List Sale)
  estoque : Option (List Estoque)
  jornada : Option (List Jornada)
  receitas : Option (List FinRow)
  desp : Option (List DespRow)
  prod : Option (List Producao)
  log : Option (List Logistica)
deriving DecidableEq

/-- `all(os.path.exists(p) for p in paths.values())`: every one of the
nine artifacts exists. -/
def allPresent (s : Store) : Bool :=
  s.colab.isSome && s.vend.isSome && s.vendas.isSome && s.estoque.isSome &&
  s.jornada.isSome && s.receitas.isSome && s.desp.isSome && s.prod.isSome && s.log.isSome

/-- All the oracles consumed by a full generation pass. -/
structure Rng where
  colab : ColabRng
  vendFake : Nat → String
  vendas : VendasRng
  estoqueStock : Nat → ℚ
  estoqueGiro : Nat → ℚ
  jornada : JornadaRng
  desp : DespRng
  prodDef : Nat → ℚ
  logFrete : Nat → ℚ
  logTempo : Nat → ℚ

/-- The full-generation block of `carregar_ou_gerar_dados` (lines 239-245
of the source, with its hard-coded counts). -/
def gerarTudo (g : Rng) : Dataset :=
  let dfColab := gerarColaboradores g.colab 300
  let dfVendedores := gerarVendedores g.vendFake dfColab 50
  let dfVendas := gerarVendas g.vendas 15000 ⟨2024, 1, 1⟩ ⟨2025, 10, 1⟩ (some dfVendedores)
  let dfEstoque := gerarEstoque g.estoqueStock g.estoqueGiro dfVendas
  let dfJornada := gerarJornada g.jornada dfColab 60
  let fin := gerarFinanceiro g.desp dfVendas
  let ops := gerarOperacoes g.prodDef g.logFrete g.logTempo dfVendas
  { colab := dfColab, vend := dfVendedores, vendas := dfVendas, estoque := dfEstoque,
    jornada := dfJornada, receitas := fin.1, desp := fin.2, prod := ops.1, log := ops.2 }

/-- The nine `salvar_parquet` calls: persist every table of the dataset,
one artifact per table. -/
def salvarTudo (d : Dataset) : Store :=
  { colab := some d.colab, vend := some d.vend, vendas := some d.vendas,
    estoque := some d.estoque, jornada := some d.jornada, receitas := some d.receitas,
    desp := some d.desp, prod := some d.prod, log := some d.log }

/-- `pd.to_datetime` applied at load time to a column persisted with day
resolution: the parquet round trip is lossless on our day-resolution
dates, so re-parsing returns the same date value. -/
def toDatetime (d : Date) : Date := d

/-- The load block of `carregar_ou_gerar_dados`: read each of the nine
artifacts, re-parsing the date-typed columns (`data`, `data_ref`,
`mes_ref`) back into dates.  A missing artifact reads as the empty table;
the caller only loads after ensuring all nine exist. -/
def loadStore (s : Store) : Dataset :=
  { colab := s.colab.getD []
    vend := s.vend.getD []
    vendas := (s.vendas.getD []).map fun r => { r with data := toDatetime r.data }
    estoque := s.estoque.getD []
    jornada := (s.jornada.getD []).map fun r => { r with data_ref := toDatetime r.data_ref }
    receitas := (s.receitas.getD []).map fun r => { r with data := toDatetime r.data }
    desp := (s.desp.getD []).map fun r => { r with data := toDatetime r.data }
    prod := (s.prod.getD []).map fun r => { r with mes_ref := toDatetime r.mes_ref }
    log := (s.log.getD []).map fun r => { r with mes_ref := toDatetime r.mes_ref } }

/-- `carregar_ou_gerar_dados()`: if any of the nine artifacts is missing,
regenerate everything and persist each table; then load all nine. -/
def carregarOuGerarDados (g : Rng) (s : Store) : Store × Dataset :=
  let s1 := if allPresent s then s else salvarTudo (gerarTudo g)
  (s1, loadStore s1)

/-- The period predicate of `filtrar_vendas`: the upper bound is the end
of the selected last day (`fim + 1 day - 1 second`). -/
def dentroPeriodo (periodo : Option (Date × Date)) (r : Sale) : Bool :=
  match periodo with
  | some p =>
    decide (tsDate p.1 ≤ tsDate r.data) && decide (tsDate r.data ≤ tsDate p.2 + 86400 - 1)
  | none => true

/-- `filtrar_vendas(df)`: the period filter (when a 2-element period is
selected) followed by the three `isin` membership filters. -/
def filtrarVendas (periodo : Option (Date × Date))
    (regiaoSel produtosSel categoriaSel : List String) (df : List Sale) : List Sale :=
  let df1 := df.filter (dentroPeriodo periodo)
  let df2 := df1.filter fun r => decide (r.regiao ∈ regiaoSel)
  let df3 := df2.filter fun r => decide (r.produto ∈ produtosSel)
  df3.filter fun r => decide (r.categoria ∈ categoriaSel)

/-- KPI `receita_total`: sum of `valor_total` over the filtered set. -/
def receitaTotal (df : List Sale) : ℚ := (df.map (·.valor_total)).sum

/-- KPI `lucro_total`: sum of `lucro` over the filtered set. -/
def lucroTotal (df : List Sale) : ℚ := (df.map (·.lucro)).sum

/-- KPI `qtd_pedidos`: row count of the filtered set. -/
def qtdPedidos (df : List Sale) : Nat := df.length

/-- KPI ticket médio: `receita_total / max(qtd_pedidos, 1)`. -/
def ticketMedio (df : List Sale) : ℚ :=
  receitaTotal df / ((Nat.max (qtdPedidos df) 1 : Nat) : ℚ)

/-- Constant-zero Nat oracle, a concrete deterministic seed. -/
def z0 : Nat → Nat := fun _ => 0

/-- Constant-zero rational oracle. -/
def zq : Nat → ℚ := fun _ => 0

/-- Constant empty-string oracle. -/
def zs : Nat → String := fun _ => ""

/-- Zero seed for `gerar_colaboradores`. -/
def zColabRng : ColabRng := ⟨zs, z0, z0, zq, z0, z0, z0, z0⟩

/-- Zero seed for `gerar_vendas`. -/
def zVendasRng : VendasRng := ⟨z0, z0, z0, z0, z0, z0, zq, z0, zq, z0, zs, zs⟩

/-- Zero seed for `gerar_jornada`. -/
def zJornadaRng : JornadaRng := ⟨z0, fun _ _ => 0, fun _ _ => 0⟩

/-- Zero seed for the expense draws. -/
def zDespRng : DespRng := ⟨zq, zq, zq, zq⟩

/-- Zero seed for a full generation pass. -/
def zRng : Rng := ⟨zColabRng, zs, zVendasRng, zq, zq, zJornadaRng, zDespRng, zq, zq, zq⟩

/-- A data directory with no artifact present. -/
def emptyStore : Store := ⟨none, none, none, none, none, none, none, none, none⟩

/-- A data directory with all nine artifacts present (empty tables). -/
def fullStore : Store :=
  ⟨some [], some [], some [], some [], some [], some [], some [], some [], some []⟩

/-- The single sale produced by `gerarVendas zVendasRng 1` on a one-day
range: every choice takes index 0. -/
def vendaW : Sale :=
  { data := ⟨2024, 1, 1⟩, ano := 2024, mes := 1, regiao := "Norte", estado := "AM",
    produto := "Produto A", categoria := "Linha Casa", quantidade := 1,
    valor_unit := 72, desconto := 0, valor_total := 72, margem_pct := 3/20,
    lucro := 54/5, vendedor := "", cliente := "" }

/-- A sale whose (product, state) group sums to quantity 71. -/
def venda71 : Sale := { vendaW with quantidade := 71 }

/-- A sale whose (month, state) group sums to quantity 3. -/
def venda3 : Sale := { vendaW with quantidade := 3 }

/-- Defect oracle hitting `uniform(0.5, 3.5) = 1` exactly. -/
def defSixth : Nat → ℚ := fun _ => 1/6

/-- A sale in January 2024. -/
def vendaJan : Sale := { vendaW with data := ⟨2024, 1, 5⟩ }

/-- A sale in March 2024: together with `vendaJan` the date range spans
exactly three calendar months. -/
def vendaMar : Sale := { vendaW with data := ⟨2024, 3, 20⟩ }

/-- A Sales table spanning exactly three calendar months. -/
def dfTresMeses : List Sale := [vendaJan, vendaMar]

/-- The single Inventory row generated from `[venda71]`. -/
def estoqueW : Estoque :=
  mkEstoque zq zq [venda71] (0, (venda71.produto, venda71.estado))

/-- The single Production row generated from `[venda3]` with the defect
oracle `defSixth`. -/
def producaoW : Producao :=
  mkProducao defSixth [venda3] (0, (monthStart venda3.data, venda3.estado))

theorem chooseD_mem {α : Type} (l : List α) (dflt : α) (k : Nat) (h : l ≠ []) :
    chooseD l dflt k ∈ l := by
  have hl : 0 < l.length := List.length_pos.mpr h
  have hk : k % l.length < l.length := Nat.mod_lt _ hl
  unfold chooseD
  rw [List.getD_eq_getElem l dflt hk]
  exact List.getElem_mem hk

theorem estados_ne_nil : ∀ s ∈ REGIOES, ESTADOS_POR_REGIAO s ≠ [] := by decide

theorem mem_insereData {r s : Sale} {l : List Sale} :
    r ∈ insereData s l ↔ r = s ∨ r ∈ l := by
  induction l with
  | nil => simp [insereData]
  | cons t ts ih =>
    by_cases h : tsDate s.data ≤ tsDate t.data
    · simp [insereData, h]
    · simp only [insereData, if_neg h, List.mem_cons, ih]
      tauto

theorem mem_sortValuesData {r : Sale} {l : List Sale} :
    r ∈ sortValuesData l ↔ r ∈ l := by
  induction l with
  | nil => simp [sortValuesData]
  | cons t ts ih =>
    simp only [sortValuesData, List.foldr_cons] at *
    rw [mem_insereData, ih, List.mem_cons]

theorem mem_gerarVendas {g : VendasRng} {n : Nat} {inicio fim : Date}
    {vs : Option (List String)} {r : Sale} (hr : r ∈ gerarVendas g n inicio fim vs) :
    ∃ i, i < n ∧ r = mkVenda g (dateRange inicio fim) vs i := by
  unfold gerarVendas at hr
  rw [mem_sortValuesData] at hr
  obtain ⟨i, hi, hri⟩ := List.mem_map.mp hr
  exact ⟨i, List.mem_range.mp hi, hri.symm⟩

theorem mkVenda_regiao (g : VendasRng) (dates : List Date) (vs : Option (List String))
    (i : Nat) : (mkVenda g dates vs i).regiao = chooseD REGIOES "" (g.regIdx i) := rfl

theorem mkVenda_estado (g : VendasRng) (dates : List Date) (vs : Option (List String))
    (i : Nat) :
    (mkVenda g dates vs i).estado =
      chooseD (ESTADOS_POR_REGIAO (mkVenda g dates vs i).regiao) "" (g.estIdx i) := rfl

/-- C1: every generated Sales row has a state drawn from the state set of
its own region, with no exceptions. -/
theorem vendas_estado_na_regiao (g : VendasRng) (n : Nat) (inicio fim : Date)
    (vs : Option (List String)) (r : Sale) (hr : r ∈ gerarVendas g n inicio fim vs) :
    r.estado ∈ ESTADOS_POR_REGIAO r.regiao := by
  obtain ⟨i, _, hri⟩ := mem_gerarVendas hr
  subst hri
  rw [mkVenda_estado]
  refine chooseD_mem _ _ _ (estados_ne_nil _ ?_)
  rw [mkVenda_regiao]
  exact chooseD_mem _ _ _ (by decide)

/-- C1 witness: the single sale generated with the zero seed on a one-day
range (region `Norte`, state `AM`) satisfies the invariant. -/
theorem vendas_estado_na_regiao_witness :
    (mkVenda zVendasRng (dateRange ⟨2024, 1, 1⟩ ⟨2024, 1, 1⟩) none 0).estado ∈
      ESTADOS_POR_REGIAO (mkVenda zVendasRng (dateRange ⟨2024, 1, 1⟩ ⟨2024, 1, 1⟩) none 0).regiao :=
  vendas_estado_na_regiao zVendasRng 1 ⟨2024, 1, 1⟩ ⟨2024, 1, 1⟩ none _
    (List.mem_singleton.mpr rfl)

/-- C4: every generated Sales row satisfies
`valor_total = round2(quantidade * valor_unit * (1 - desconto))`, where
`valor_unit` is the row's stored (already rounded) unit price. -/
theorem vendas_valor_total_formula (g : VendasRng) (n : Nat) (inicio fim : Date)
    (vs : Option (List String)) (r : Sale) (hr : r ∈ gerarVendas g n inicio fim vs) :
    r.valor_total = round2 ((r.quantidade : ℚ) * r.valor_unit * (1 - r.desconto)) := by
  obtain ⟨i, _, hri⟩ := mem_gerarVendas hr
  subst hri
  rfl

/-- C4 witness: the zero-seed sale (quantity 1, unit price 72, discount 0,
total 72) satisfies the total-value formula. -/
theorem vendas_valor_total_formula_witness :
    (mkVenda zVendasRng (dateRange ⟨2024, 1, 1⟩ ⟨2024, 1, 1⟩) none 0).valor_total =
      round2 (((mkVenda zVendasRng (dateRange ⟨2024, 1, 1⟩ ⟨2024, 1, 1⟩) none 0).quantidade : ℚ) *
        (mkVenda zVendasRng (dateRange ⟨2024, 1, 1⟩ ⟨2024, 1, 1⟩) none 0).valor_unit *
        (1 - (mkVenda zVendasRng (dateRange ⟨2024, 1, 1⟩ ⟨2024, 1, 1⟩) none 0).desconto)) :=
  vendas_valor_total_formula zVendasRng 1 ⟨2024, 1, 1⟩ ⟨2024, 1, 1⟩ none _
    (List.mem_singleton.mpr rfl)

/-- C10: in every generated Sales row the `ano` and `mes` columns agree
with the calendar year and month of the `data` column. -/
theorem vendas_ano_mes_consistentes (g : VendasRng) (n : Nat) (inicio fim : Date)
    (vs : Option (List String)) (r : Sale) (hr : r ∈ gerarVendas g n inicio fim vs) :
    r.ano = r.data.year ∧ r.mes = r.data.month := by
  obtain ⟨i, _, hri⟩ := mem_gerarVendas hr
  subst hri
  exact ⟨rfl, rfl⟩

/-- C10 witness: the zero-seed sale (date 2024-01-01) has `ano = 2024` and
`mes = 1`. -/
theorem vendas_ano_mes_consistentes_witness :
    (mkVenda zVendasRng (dateRange ⟨2024, 1, 1⟩ ⟨2024, 1, 1⟩) none 0).ano =
      (mkVenda zVendasRng (dateRange ⟨2024, 1, 1⟩ ⟨2024, 1, 1⟩) none 0).data.year ∧
    (mkVenda zVendasRng (dateRange ⟨2024, 1, 1⟩ ⟨2024, 1, 1⟩) none 0).mes =
      (mkVenda zVendasRng (dateRange ⟨2024, 1, 1⟩ ⟨2024, 1, 1⟩) none 0).data.month :=
  vendas_ano_mes_consistentes zVendasRng 1 ⟨2024, 1, 1⟩ ⟨2024, 1, 1⟩ none _
    (List.mem_singleton.mpr rfl)

/-- C9: the Salesperson generator always returns exactly `n` names; when
the Comercial/Operações candidate pool has at least `n` names they are all
drawn from the pool, and otherwise the pool is padded with synthetic
names up to the requested count. -/
theorem vendedores_contagem (fakeNome : Nat → String) (dfColab : List Colab) (n : Nat) :
    (gerarVendedores fakeNome dfColab n).length = n ∧
    (n ≤ (candidatosVendedores dfColab).length →
      gerarVendedores fakeNome dfColab n = (candidatosVendedores dfColab).take n) ∧
    ((candidatosVendedores dfColab).length < n →
      gerarVendedores fakeNome dfColab n =
        candidatosVendedores dfColab ++
          (List.range (n - (candidatosVendedores dfColab).length)).map fakeNome) := by
  simp only [gerarVendedores]
  by_cases h : n ≤ (candidatosVendedores dfColab).length
  · have hlen : ((candidatosVendedores dfColab).take n).length = n := by
      rw [List.length_take]
      omega
    rw [if_pos h, hlen, if_neg (lt_irrefl n), List.take_of_length_le (le_of_eq hlen)]
    exact ⟨hlen, fun _ => rfl, fun hc => absurd hc (not_lt.mpr h)⟩
  · push_neg at h
    have hpad :
        (candidatosVendedores dfColab ++
          (List.range (n - (candidatosVendedores dfColab).length)).map fakeNome).length = n := by
      simp [List.length_append]
      omega
    rw [if_neg (not_le.mpr h), if_pos h, List.take_of_length_le (le_of_eq hpad)]
    exact ⟨hpad, fun hc => absurd hc (not_le.mpr h), fun _ => rfl⟩

/-- C9 witness: with an empty employee table and `n = 2` the pool is empty
and the result is two synthetic names. -/
theorem vendedores_contagem_witness :
    (gerarVendedores zs [] 2).length = 2 ∧
    gerarVendedores zs [] 2 =
      candidatosVendedores [] ++ (List.range (2 - (candidatosVendedores []).length)).map zs :=
  ⟨(vendedores_contagem zs [] 2).1,
   (vendedores_contagem zs [] 2).2.2 (by decide)⟩

theorem round2_le_round2 {x y : ℚ} (h : x ≤ y) : round2 x ≤ round2 y := by
  unfold round2
  have hf : round (x * 100) ≤ round (y * 100) := by
    rw [round_eq, round_eq]
    exact Int.floor_le_floor (by linarith)
  have hq : ((round (x * 100) : ℤ) : ℚ) ≤ ((round (y * 100) : ℤ) : ℚ) := by exact_mod_cast hf
  linarith

theorem round2_50 : round2 50 = 50 := by
  unfold round2
  rw [show ((50 : ℚ) * 100) = ((5000 : ℤ) : ℚ) by norm_num, round_intCast]
  norm_num

theorem round2_199half : round2 (199/2) = 199/2 := by
  unfold round2
  rw [show ((199/2 : ℚ) * 100) = ((9950 : ℤ) : ℚ) by norm_num, round_intCast]
  norm_num

/-- C5 (amended): every Inventory row's reorder point equals
`max(20, int(0.3 × summed_quantity))` — the source truncates `0.3×q` to an
integer before clipping at 20 — and is therefore at least 20. -/
theorem estoque_ponto_pedido (stockR giroR : Nat → ℚ) (df : List Sale) (r : Estoque)
    (hr : r ∈ gerarEstoque stockR giroR df) :
    r.ponto_pedido = max 20 (truncQ ((sumQuant df (r.produto, r.estado) : ℚ) * (3/10))) ∧
    20 ≤ r.ponto_pedido := by
  simp only [gerarEstoque] at hr
  obtain ⟨p, hp, hrp⟩ := List.mem_map.mp hr
  subst hrp
  exact ⟨rfl, le_max_left _ _⟩

/-- C5 witness: the Inventory row generated from `[venda71]` has reorder
point `max(20, int(71 × 0.3)) = 21 ≥ 20`. -/
theorem estoque_ponto_pedido_witness :
    estoqueW.ponto_pedido =
      max 20 (truncQ ((sumQuant [venda71] (estoqueW.produto, estoqueW.estado) : ℚ) * (3/10))) ∧
    20 ≤ estoqueW.ponto_pedido :=
  estoque_ponto_pedido zq zq [venda71] estoqueW (List.mem_singleton.mpr rfl)

/-- C5 counterexample: on the Sales table `[venda71]` (summed quantity 71)
the generated reorder point is `21`, while the claim's exact formula
`max(20, 0.3 × 71)` gives `21.3`; the claim without integer truncation is
false. -/
theorem estoque_ponto_pedido_cex :
    ¬ (∀ (stockR giroR : Nat → ℚ) (df : List Sale) (r : Estoque),
        r ∈ gerarEstoque stockR giroR df →
        (r.ponto_pedido : ℚ) = max 20 ((sumQuant df (r.produto, r.estado) : ℚ) * (3/10))) := by
  intro h
  have h1 := h zq zq [venda71] estoqueW (List.mem_singleton.mpr rfl)
  have hsum : sumQuant [venda71] (estoqueW.produto, estoqueW.estado) = 71 := rfl
  rw [hsum] at h1
  have htr : truncQ ((71 : ℚ) * (3/10)) = 21 := by
    unfold truncQ
    rw [if_pos (by norm_num), show ((71 : ℚ) * (3/10)) = 213/10 by norm_num]
    exact Int.floor_eq_iff.mpr (by norm_num)
  have hpp : estoqueW.ponto_pedido = 21 := by
    show max 20 (truncQ ((sumQuant [venda71] (venda71.produto, venda71.estado) : ℚ) * (3/10))) = 21
    rw [show sumQuant [venda71] (venda71.produto, venda71.estado) = 71 from rfl,
      show ((71 : ℕ) : ℚ) = (71 : ℚ) by norm_num, htr]
    decide
  rw [hpp, show ((71 : ℕ) : ℚ) = (71 : ℚ) by norm_num,
    max_eq_right (by norm_num : (20 : ℚ) ≤ (71 : ℚ) * (3/10))] at h1
  norm_num at h1

theorem mkProducao_eficiencia (defR : Nat → ℚ) (df : List Sale) (p : Nat × (Date × String)) :
    (mkProducao defR df p).eficiencia_pct =
      round2 (clipQ 50 (199/2) (100 - ((mkProducao defR df p).defeitos : ℚ) /
        max ((mkProducao defR df p).qtd_produzida : ℚ) 1 * 100)) := rfl

/-- C6 (amended): every Production row's efficiency equals
`round2(clip(100 − defects / max(qty_produced, 1) × 100, 50, 99.5))` — the
claim's clipped formula followed by the source's rounding to two decimals,
with the zero-quantity denominator floor-clamped to 1 — and therefore lies
in `[50, 99.5]`. -/
theorem producao_eficiencia (defR freteR tempoR : Nat → ℚ) (df : List Sale) (r : Producao)
    (hr : r ∈ (gerarOperacoes defR freteR tempoR df).1) :
    r.eficiencia_pct =
      round2 (clipQ 50 (199/2) (100 - (r.defeitos : ℚ) / max (r.qtd_produzida : ℚ) 1 * 100)) ∧
    50 ≤ r.eficiencia_pct ∧ r.eficiencia_pct ≤ 199/2 := by
  simp only [gerarOperacoes] at hr
  obtain ⟨p, hp, hrp⟩ := List.mem_map.mp hr
  subst hrp
  refine ⟨mkProducao_eficiencia defR df p, ?_, ?_⟩
  · rw [mkProducao_eficiencia defR df p]
    calc (50 : ℚ) = round2 50 := round2_50.symm
      _ ≤ _ := round2_le_round2 (le_min (by norm_num) (le_max_left _ _))
  · rw [mkProducao_eficiencia defR df p]
    calc round2 (clipQ 50 (199/2) _) ≤ round2 (199/2) := round2_le_round2 (min_le_left _ _)
      _ = 199/2 := round2_199half

/-- C6 witness: the Production row generated from `[venda3]` with defect
oracle `defSixth` satisfies the rounded-clip formula and its bounds. -/
theorem producao_eficiencia_witness :
    producaoW.eficiencia_pct =
      round2 (clipQ 50 (199/2)
        (100 - (producaoW.defeitos : ℚ) / max (producaoW.qtd_produzida : ℚ) 1 * 100)) ∧
    50 ≤ producaoW.eficiencia_pct ∧ producaoW.eficiencia_pct ≤ 199/2 :=
  producao_eficiencia defSixth zq zq [venda3] producaoW (List.mem_singleton.mpr rfl)

/-- C6 counterexample: on the Sales table `[venda3]` (group quantity 3,
one defect) the generator produces efficiency `66.67` (rounded to two
decimals) while the claim's exact clip formula gives `200/3 = 66.666…`;
the claim without the final rounding step is false. -/
theorem producao_eficiencia_cex :
    ¬ (∀ (defR freteR tempoR : Nat → ℚ) (df : List Sale) (r : Producao),
        r ∈ (gerarOperacoes defR freteR tempoR df).1 →
        r.eficiencia_pct =
          clipQ 50 (199/2) (100 - (r.defeitos : ℚ) / max (r.qtd_produzida : ℚ) 1 * 100)) := by
  intro h
  have h1 := h defSixth zq zq [venda3] producaoW (List.mem_singleton.mpr rfl)
  have hlen : (grupoMesEstado [venda3] (monthStart venda3.data, venda3.estado)).length = 1 := rfl
  have hq : producaoW.qtd_produzida = 3 := rfl
  have hu : unif (1/2) (7/2) (1/6) = 1 := by
    unfold unif
    rw [min_eq_right (by norm_num : (1/6 : ℚ) ≤ 1), max_eq_right (by norm_num : (0 : ℚ) ≤ 1/6)]
    norm_num
  have hdef : producaoW.defeitos = 1 := by
    show truncQ (unif (1/2) (7/2) (defSixth 0) *
      ((grupoMesEstado [venda3] (monthStart venda3.data, venda3.estado)).length : ℚ)) = 1
    rw [hlen, show defSixth 0 = 1/6 from rfl, hu,
      show ((1 : ℚ) * ((1 : ℕ) : ℚ)) = 1 by norm_num]
    unfold truncQ
    rw [if_pos (by norm_num)]
    exact Int.floor_one
  have hinner :
      clipQ 50 (199/2) (100 - (producaoW.defeitos : ℚ) /
        max (producaoW.qtd_produzida : ℚ) 1 * 100) = 200/3 := by
    rw [hdef, hq]
    push_cast
    rw [max_eq_left (by norm_num : (1 : ℚ) ≤ 3)]
    unfold clipQ
    rw [max_eq_right (by norm_num : (50 : ℚ) ≤ 100 - 1/3 * 100),
      min_eq_right (by norm_num : (100 : ℚ) - 1/3 * 100 ≤ 199/2)]
    norm_num
  have hr2 : round2 (200/3 : ℚ) = 6667/100 := by
    unfold round2
    rw [show ((200/3 : ℚ) * 100) = 20000/3 by norm_num, round_eq,
      show ((20000/3 : ℚ) + 1/2) = 40003/6 by norm_num,
      show ⌊(40003/6 : ℚ)⌋ = 6667 from Int.floor_eq_iff.mpr (by norm_num)]
    norm_num
  have heff := mkProducao_eficiencia defSixth [venda3] (0, (monthStart venda3.data, venda3.estado))
  rw [hinner] at h1
  rw [show (mkProducao defSixth [venda3] (0, (monthStart venda3.data, venda3.estado))) =
    producaoW from rfl, hinner, hr2, h1] at heff
  norm_num at heff

/-- C7: the four KPI reductions over the filtered Sales set are total
functions of the set alone; on an empty filtered set they all evaluate to
zero — in particular the average is defined as 0 instead of raising a
division by zero — and on a nonempty set the average is exactly
`receita_total / qtd_pedidos`. -/
theorem kpis_funcoes_totais :
    (receitaTotal [] = 0 ∧ lucroTotal [] = 0 ∧ qtdPedidos [] = 0 ∧ ticketMedio [] = 0) ∧
    ∀ df : List Sale, df ≠ [] → ticketMedio df = receitaTotal df / (qtdPedidos df : ℚ) := by
  refine ⟨⟨rfl, rfl, rfl, by simp [ticketMedio, receitaTotal, qtdPedidos]⟩, ?_⟩
  intro df hdf
  unfold ticketMedio qtdPedidos
  have h2 : 0 < df.length := List.length_pos.mpr hdf
  have h1 : Nat.max df.length 1 = df.length := by
    show max df.length 1 = df.length
    omega
  rw [h1]

/-- C7 witness: on the one-row filtered set the average equals the sum
divided by the count. -/
theorem kpis_funcoes_totais_witness :
    ticketMedio [vendaW] = receitaTotal [vendaW] / (qtdPedidos [vendaW] : ℚ) :=
  kpis_funcoes_totais.2 [vendaW] (by simp)

theorem mem_filtrarVendas (periodo : Option (Date × Date))
    (regiaoSel produtosSel categoriaSel : List String) (df : List Sale) (r : Sale) :
    r ∈ filtrarVendas periodo regiaoSel produtosSel categoriaSel df ↔
      r ∈ df ∧ dentroPeriodo periodo r = true ∧ r.regiao ∈ regiaoSel ∧
        r.produto ∈ produtosSel ∧ r.categoria ∈ categoriaSel := by
  simp only [filtrarVendas, List.mem_filter, decide_eq_true_eq]
  tauto

/-- C3: the filter returns exactly the rows satisfying the conjunction of
the period predicate and the three set-membership predicates, and an empty
selected set on any dimension makes the result empty (match nothing, not
match everything). -/
theorem filtrar_vendas_conjuncao (periodo : Option (Date × Date))
    (regiaoSel produtosSel categoriaSel : List String) (df : List Sale) :
    (∀ r : Sale, r ∈ filtrarVendas periodo regiaoSel produtosSel categoriaSel df ↔
      r ∈ df ∧ dentroPeriodo periodo r = true ∧ r.regiao ∈ regiaoSel ∧
        r.produto ∈ produtosSel ∧ r.categoria ∈ categoriaSel) ∧
    (regiaoSel = [] ∨ produtosSel = [] ∨ categoriaSel = [] →
      filtrarVendas periodo regiaoSel produtosSel categoriaSel df = []) := by
  refine ⟨mem_filtrarVendas periodo regiaoSel produtosSel categoriaSel df, ?_⟩
  intro h
  rw [List.eq_nil_iff_forall_not_mem]
  intro r hr
  rw [mem_filtrarVendas] at hr
  rcases h with h | h | h <;> subst h <;> simp at hr

/-- C3 witness: filtering the one-row table with an empty region selection
returns the empty table. -/
theorem filtrar_vendas_conjuncao_witness :
    filtrarVendas none [] PRODUTOS CATEGORIAS [vendaW] = [] :=
  (filtrar_vendas_conjuncao none [] PRODUTOS CATEGORIAS [vendaW]).2 (Or.inl rfl)


/-- C8: the financial aggregator produces exactly one Revenue row per
calendar month spanned by the Sales date range and exactly four Expense
rows (one per cost center) per such month; on the concrete three-month
table this gives 3 Revenue rows and 12 Expense rows. -/
theorem financeiro_linhas_por_mes :
    (∀ (dr : DespRng) (df : List Sale),
      (gerarFinanceiro dr df).1.length = spanMeses df ∧
      (gerarFinanceiro dr df).2.length = 4 * spanMeses df) ∧
    spanMeses dfTresMeses = 3 ∧
    (gerarFinanceiro zDespRng dfTresMeses).1.length = 3 ∧
    (gerarFinanceiro zDespRng dfTresMeses).2.length = 12 := by
  have hmain : ∀ (dr : DespRng) (df : List Sale),
      (gerarFinanceiro dr df).1.length = spanMeses df ∧
      (gerarFinanceiro dr df).2.length = 4 * spanMeses df := by
    intro dr df
    constructor
    · simp [gerarFinanceiro, spanMeses]
    · simp only [gerarFinanceiro]
      rw [List.length_flatMap]
      simp [Function.comp_def, List.map_const', List.sum_replicate, smul_eq_mul,
        spanMeses, List.enum_length, Nat.mul_comm]
  have h3 : spanMeses dfTresMeses = 3 := rfl
  refine ⟨hmain, h3, ?_, ?_⟩
  · rw [(hmain zDespRng dfTresMeses).1, h3]
  · rw [(hmain zDespRng dfTresMeses).2, h3]

/-- C2: the snapshot-cache loader is all-or-nothing: if all nine artifacts
exist it loads and returns them without writing anything; if any single
artifact is missing it regenerates the entire set of nine, persists each
one, and the returned dataset (dates re-parsed) is exactly the freshly
generated one — never a partial regeneration. -/
theorem cache_tudo_ou_nada (g : Rng) (s : Store) :
    (allPresent s = true → carregarOuGerarDados g s = (s, loadStore s)) ∧
    (allPresent s = false →
      (carregarOuGerarDados g s).1 = salvarTudo (gerarTudo g) ∧
      allPresent (carregarOuGerarDados g s).1 = true ∧
      (carregarOuGerarDados g s).2 = gerarTudo g) := by
  have hload : ∀ d : Dataset, loadStore (salvarTudo d) = d := by
    intro d
    unfold loadStore salvarTudo
    simp only [Option.getD_some]
    rw [show (fun r : Sale => { r with data := toDatetime r.data }) = id from rfl,
      show (fun r : Jornada => { r with data_ref := toDatetime r.data_ref }) = id from rfl,
      show (fun r : FinRow => { r with data := toDatetime r.data }) = id from rfl,
      show (fun r : DespRow => { r with data := toDatetime r.data }) = id from rfl,
      show (fun r : Producao => { r with mes_ref := toDatetime r.mes_ref }) = id from rfl,
      show (fun r : Logistica => { r with mes_ref := toDatetime r.mes_ref }) = id from rfl,
      List.map_id, List.map_id, List.map_id, List.map_id, List.map_id, List.map_id]
  constructor
  · intro h
    simp [carregarOuGerarDados, h]
  · intro h
    have hs1 : (carregarOuGerarDados g s).1 = salvarTudo (gerarTudo g) := by
      simp [carregarOuGerarDados, h]
    refine ⟨hs1, ?_, ?_⟩
    · rw [hs1]
      rfl
    · show loadStore (carregarOuGerarDados g s).1 = gerarTudo g
      rw [hs1]
      exact hload (gerarTudo g)

/-- C2 witness: with all nine artifacts present the loader returns the
store untouched; starting from the empty store it persists the whole
regenerated set of nine. -/
theorem cache_tudo_ou_nada_witness :
    carregarOuGerarDados zRng fullStore = (fullStore, loadStore fullStore) ∧
    (carregarOuGerarDados zRng emptyStore).1 = salvarTudo (gerarTudo zRng) ∧
    allPresent (carregarOuGerarDados zRng emptyStore).1 = true :=
  ⟨(cache_tudo_ou_nada zRng fullStore).1 rfl,
   ((cache_tudo_ou_nada zRng emptyStore).2 rfl).1,
   ((cache_tudo_ou_nada zRng emptyStore).2 rfl).2.1⟩
